import Mathlib

/-!
Verification of `deform_source_mesh_to_target_mesh.py`.

The script deforms a source mesh (an ico-sphere) toward a target mesh by
optimizing a per-vertex offset tensor.  We shallowly embed:

* the target-mesh normalization (lines 90-93): subtract the per-coordinate
  mean, divide by the maximum absolute centered coordinate;
* the `Meshes` data the script uses: vertex list plus face-index list, with
  `offset_verts` and `get_mesh_verts_faces`;
* the optimization loop (lines 174-215) as a step function on an explicit
  state.  The loss kernels (`chamfer_distance`, `mesh_edge_loss`,
  `mesh_normal_consistency`, `mesh_laplacian_smoothing`,
  `sample_points_from_meshes`) and the autograd gradient live in the external
  pytorch3d/torch libraries, not in this repository, so they enter the model
  as opaque function parameters (`ExternalFns`); the loop structure itself —
  what is built before what, what is appended where, how SGD with momentum
  updates the offsets — is embedded faithfully;
* the script-level flow (load, normalize, loop, inverse-transform, save) as
  an `Except`-valued function so that load failure propagation is visible.

Machine floats are modelled by exact rationals `ℚ`.
-/

/-- A 3D point/vector, one row of a `(V, 3)` tensor. -/
abbrev Vec3 : Type := ℚ × ℚ × ℚ

/-- Componentwise addition of 3-vectors. -/
def vadd (a b : Vec3) : Vec3 := (a.1 + b.1, a.2.1 + b.2.1, a.2.2 + b.2.2)

/-- Componentwise subtraction of 3-vectors. -/
def vsub (a b : Vec3) : Vec3 := (a.1 - b.1, a.2.1 - b.2.1, a.2.2 - b.2.2)

/-- Multiply each component by a scalar (`verts * scale`). -/
def vsmul (s : ℚ) (a : Vec3) : Vec3 := (a.1 * s, a.2.1 * s, a.2.2 * s)

/-- Divide each component by a scalar (`verts / scale`). -/
def vdiv (a : Vec3) (s : ℚ) : Vec3 := (a.1 / s, a.2.1 / s, a.2.2 / s)

/-- Maximum absolute value of the three components of one vertex. -/
def vabsMax (a : Vec3) : ℚ := max |a.1| (max |a.2.1| |a.2.2|)

/-- Componentwise sum of a vertex list (`verts.sum(0)`). -/
def vsum (vs : List Vec3) : Vec3 := vs.foldr vadd (0, 0, 0)

/-- Per-coordinate mean of a vertex list, `verts.mean(0)` (line 90). -/
def vmean (vs : List Vec3) : Vec3 :=
  vdiv (vsum vs) (vs.length : ℚ)

/-- Line 90: `center = verts.mean(0)`. -/
def centerOf (vs : List Vec3) : Vec3 := vmean vs

/-- Line 91: `verts = verts - center` (broadcast subtraction of the mean). -/
def centeredVerts (vs : List Vec3) : List Vec3 :=
  vs.map (fun v => vsub v (centerOf vs))

/-- Maximum absolute coordinate over a whole vertex list,
`max(verts.abs().max(0)[0])`: the per-column absolute maxima followed by the
outer `max` collapse to one maximum over all nine entries. -/
def maxAbsCoord (vs : List Vec3) : ℚ :=
  vs.foldr (fun v acc => max (vabsMax v) acc) 0

/-- Line 92: `scale = max(verts.abs().max(0)[0])`, taken on the centered
vertices. -/
def scaleOf (vs : List Vec3) : ℚ := maxAbsCoord (centeredVerts vs)

/-- Lines 90-93: center then divide by the scale, giving the normalized
target vertices. -/
def normalizeVerts (vs : List Vec3) : List Vec3 :=
  (centeredVerts vs).map (fun v => vdiv v (scaleOf vs))

/-- Line 244: `final_verts = final_verts * scale + center`, the stored inverse
transform applied to one vertex. -/
def invTransform (scale : ℚ) (center : Vec3) (v : Vec3) : Vec3 :=
  vadd (vsmul scale v) center

/-- A concrete non-degenerate vertex list used by witnesses. -/
def sampleVerts : List Vec3 := [(0, 0, 0), (2, 0, 0)]

/-- A pytorch3d `Meshes` batch holding one mesh: packed vertex positions plus
triangular face-index triples (`faces.verts_idx`). -/
structure Mesh where
  verts : List Vec3
  faces : List (ℕ × ℕ × ℕ)
deriving DecidableEq

/-- Line 179, `Meshes.offset_verts`: add one offset vector to each
corresponding vertex, producing a new mesh; the face topology is carried over
unchanged. -/
def Mesh.offset_verts (m : Mesh) (d : List Vec3) : Mesh :=
  { verts := List.zipWith vadd m.verts d, faces := m.faces }

/-- Line 241, `get_mesh_verts_faces(0)`: the vertices and faces of the single
mesh in the batch. -/
def Mesh.get_mesh_verts_faces (m : Mesh) : List Vec3 × List (ℕ × ℕ × ℕ) :=
  (m.verts, m.faces)

/-- Line 154: `Niter = 2000`. -/
def Niter : ℕ := 2000

/-- Line 156: `w_chamfer = 1.0`. -/
def w_chamfer : ℚ := 1

/-- Line 158: `w_edge = 1.0`. -/
def w_edge : ℚ := 1

/-- Line 160: `w_normal = 0.01`. -/
def w_normal : ℚ := 1 / 100

/-- Line 162: `w_laplacian = 0.1`. -/
def w_laplacian : ℚ := 1 / 10

/-- Line 147: learning rate of the SGD optimizer, `lr=1.0`. -/
def lr : ℚ := 1

/-- Line 147: momentum of the SGD optimizer, `momentum=0.9`. -/
def momentum : ℚ := 9 / 10

/-- Line 198: `loss = loss_chamfer * w_chamfer + loss_edge * w_edge +
loss_normal * w_normal + loss_laplacian * w_laplacian`. -/
def total_loss (lc ledge lnorm llap : ℚ) : ℚ :=
  lc * w_chamfer + ledge * w_edge + lnorm * w_normal + llap * w_laplacian

/-- The kernels the loop calls into pytorch3d/torch for.  They are not code
of this repository, so they are opaque parameters of the model: the chamfer
loss additionally depends on the iteration index (stochastic point sampling,
lines 182-186), the three regularizers are functions of the deformed mesh
(lines 189-195), and `grad` is the autograd gradient of the total loss with
respect to the offsets (line 214). -/
structure ExternalFns where
  loss_chamfer : ℕ → Mesh → Mesh → ℚ
  loss_edge : Mesh → ℚ
  loss_normal : Mesh → ℚ
  loss_laplacian : Mesh → ℚ
  grad : ℕ → Mesh → List Vec3

/-- Everything the optimization loop reads but never writes. -/
structure LoopEnv where
  ext : ExternalFns
  trg_mesh : Mesh
  src_mesh : Mesh

/-- The mutable state of the optimization loop (lines 140-215): the offset
parameter, the SGD momentum buffer, the most recently built deformed mesh,
and the four loss-history lists plus the log of displayed total losses. -/
structure LoopState where
  src_mesh : Mesh
  deform_verts : List Vec3
  momentum_buf : List Vec3
  new_src_mesh : Mesh
  chamfer_losses : List ℚ
  edge_losses : List ℚ
  normal_losses : List ℚ
  laplacian_losses : List ℚ
  loss_log : List ℚ

/-- Line 140: `deform_verts = torch.full(src_mesh.verts_packed().shape, 0.0)`,
an all-zero offset per source vertex. -/
def zero_deform (m : Mesh) : List Vec3 :=
  List.replicate m.verts.length (0, 0, 0)

/-- The state on entry to the loop: zero offsets, empty momentum buffer
(modelled as zeros, which the first SGD step treats identically), empty loss
histories.  `new_src_mesh` is first assigned inside iteration 0; we seed it
with the iteration-0 value, which no theorem depends on. -/
def init_state (env : LoopEnv) : LoopState :=
  { src_mesh := env.src_mesh
    deform_verts := zero_deform env.src_mesh
    momentum_buf := List.replicate env.src_mesh.verts.length (0, 0, 0)
    new_src_mesh := env.src_mesh.offset_verts (zero_deform env.src_mesh)
    chamfer_losses := []
    edge_losses := []
    normal_losses := []
    laplacian_losses := []
    loss_log := [] }

/-- Torch SGD momentum-buffer update with `momentum=0.9`:
`buf = momentum * buf + grad`. -/
def sgd_momentum_step (buf g : List Vec3) : List Vec3 :=
  List.zipWith (fun b gi => vadd (vsmul momentum b) gi) buf g

/-- Torch SGD parameter update with `lr=1.0`: `p = p - lr * buf`. -/
def sgd_param_step (p buf : List Vec3) : List Vec3 :=
  List.zipWith (fun pv b => vsub pv (vsmul lr b)) p buf

/-- One iteration of the loop body (lines 174-215), in program order: build
the deformed mesh from the current offsets (line 179), evaluate the four loss
terms on it (lines 186-195), form the weighted total loss (line 198), display
it (line 201), append the four terms to the histories (lines 204-207), then
`loss.backward()` and `optimizer.step()` (lines 214-215) update the offsets. -/
def loop_step (env : LoopEnv) (i : ℕ) (s : LoopState) : LoopState :=
  let nm := s.src_mesh.offset_verts s.deform_verts
  let lc := env.ext.loss_chamfer i env.trg_mesh nm
  let ledge := env.ext.loss_edge nm
  let lnorm := env.ext.loss_normal nm
  let llap := env.ext.loss_laplacian nm
  let g := env.ext.grad i nm
  let buf := sgd_momentum_step s.momentum_buf g
  { src_mesh := s.src_mesh
    deform_verts := sgd_param_step s.deform_verts buf
    momentum_buf := buf
    new_src_mesh := nm
    chamfer_losses := s.chamfer_losses ++ [lc]
    edge_losses := s.edge_losses ++ [ledge]
    normal_losses := s.normal_losses ++ [lnorm]
    laplacian_losses := s.laplacian_losses ++ [llap]
    loss_log := s.loss_log ++ [total_loss lc ledge lnorm llap] }

/-- The loop state after `n` completed iterations of `for i in loop:`. -/
def run_loop (env : LoopEnv) : ℕ → LoopState
  | 0 => init_state env
  | n + 1 => loop_step env n (run_loop env n)

/-- The deformed mesh built inside iteration `i` (line 179). -/
def mesh_at (env : LoopEnv) (i : ℕ) : Mesh :=
  env.src_mesh.offset_verts ((run_loop env i).deform_verts)

/-- The parts of the script fixed before the loop runs: the outcome of
`load_obj(trg_obj)` (line 79, which raises on a missing or malformed file,
modelled as `Except`), the `ico_sphere(4)` source mesh from the external
library (line 103), and the external kernels. -/
structure ScriptInput where
  load_result : Except String (List Vec3 × List (ℕ × ℕ × ℕ))
  src_mesh : Mesh
  ext : ExternalFns

/-- The loop environment the script builds from a successful load: the target
mesh holds the normalized vertices (lines 90-96). -/
def script_env (inp : ScriptInput) (verts : List Vec3)
    (faces_idx : List (ℕ × ℕ × ℕ)) : LoopEnv :=
  { ext := inp.ext
    trg_mesh := { verts := normalizeVerts verts, faces := faces_idx }
    src_mesh := inp.src_mesh }

/-- The whole script, load through `save_obj` (lines 79-248): on load failure
the error propagates and nothing further runs; otherwise the loop runs
`niter` iterations, the final mesh's vertices are inverse-transformed by the
stored scale and center (line 244), and the vertex/face pair written by
`save_obj` (line 248) is returned. -/
def run_script (inp : ScriptInput) (niter : ℕ) :
    Except String (List Vec3 × List (ℕ × ℕ × ℕ)) :=
  match inp.load_result with
  | Except.error e => Except.error e
  | Except.ok (verts, faces_idx) =>
      let s := run_loop (script_env inp verts faces_idx) niter
      let final := s.new_src_mesh.get_mesh_verts_faces
      Except.ok (final.1.map (invTransform (scaleOf verts) (centerOf verts)),
        final.2)

/-- Concrete external kernels used by witnesses: all losses zero, gradient
one unit vector per vertex. -/
def dummy_ext : ExternalFns :=
  { loss_chamfer := fun _ _ _ => 0
    loss_edge := fun _ => 0
    loss_normal := fun _ => 0
    loss_laplacian := fun _ => 0
    grad := fun _ m => List.replicate m.verts.length (1, 0, 0) }

/-- A concrete face list used by witnesses. -/
def sampleFaces : List (ℕ × ℕ × ℕ) := [(0, 1, 2)]

/-- A concrete source mesh used by witnesses. -/
def sampleSrc : Mesh :=
  { verts := [(1, 0, 0), (0, 1, 0), (0, 0, 1)], faces := sampleFaces }

/-- A concrete script input whose load step failed. -/
def failing_input : ScriptInput :=
  { load_result := Except.error "No such file or directory"
    src_mesh := sampleSrc
    ext := dummy_ext }

/-- A concrete script input whose load step succeeded. -/
def ok_input : ScriptInput :=
  { load_result := Except.ok (sampleVerts, sampleFaces)
    src_mesh := sampleSrc
    ext := dummy_ext }

lemma vsum_nil : vsum [] = ((0 : ℚ), (0 : ℚ), (0 : ℚ)) := rfl

lemma vsum_cons (v : Vec3) (vs : List Vec3) : vsum (v :: vs) = vadd v (vsum vs) := rfl

lemma maxAbsCoord_nil : maxAbsCoord [] = 0 := rfl

lemma maxAbsCoord_cons (v : Vec3) (vs : List Vec3) :
    maxAbsCoord (v :: vs) = max (vabsMax v) (maxAbsCoord vs) := rfl

lemma vadd_zero_vec (v : Vec3) : vadd v 0 = v := by
  simp [vadd, Prod.ext_iff]

lemma vsum_map_sub (vs : List Vec3) (c : Vec3) :
    vsum (vs.map (fun v => vsub v c)) = vsub (vsum vs) (vsmul (vs.length : ℚ) c) := by
  induction vs with
  | nil => simp [vsum_nil, vsub, vsmul]
  | cons v vs ih =>
      rw [List.map_cons, vsum_cons, vsum_cons, ih]
      simp only [vadd, vsub, vsmul, List.length_cons, Prod.mk.injEq]
      push_cast
      refine ⟨by ring, by ring, by ring⟩

lemma vsum_map_div (vs : List Vec3) (s : ℚ) :
    vsum (vs.map (fun v => vdiv v s)) = vdiv (vsum vs) s := by
  induction vs with
  | nil => simp [vsum_nil, vdiv]
  | cons v vs ih =>
      rw [List.map_cons, vsum_cons, vsum_cons, ih]
      simp only [vadd, vdiv, Prod.mk.injEq]
      refine ⟨by ring, by ring, by ring⟩

lemma vsum_centeredVerts (vs : List Vec3) : vsum (centeredVerts vs) = (0, 0, 0) := by
  cases vs with
  | nil => rfl
  | cons v vs =>
      have hn : ((v :: vs).length : ℚ) ≠ 0 :=
        Nat.cast_ne_zero.mpr (List.length_pos.mpr (List.cons_ne_nil v vs)).ne'
      rw [centeredVerts, vsum_map_sub, centerOf, vmean]
      simp only [vsub, vsmul, vdiv, Prod.mk.injEq]
      refine ⟨by field_simp, by field_simp, by field_simp⟩

lemma vmean_normalizeVerts (vs : List Vec3) :
    vmean (normalizeVerts vs) = (0, 0, 0) := by
  rw [normalizeVerts, vmean, vsum_map_div, vsum_centeredVerts]
  simp [vdiv]

lemma vabsMax_nonneg (v : Vec3) : 0 ≤ vabsMax v :=
  le_trans (abs_nonneg _) (le_max_left _ _)

lemma maxAbsCoord_nonneg (vs : List Vec3) : 0 ≤ maxAbsCoord vs := by
  induction vs with
  | nil => exact le_refl 0
  | cons v vs ih => exact le_trans ih (by rw [maxAbsCoord_cons]; exact le_max_right _ _)

lemma vabsMax_le_maxAbsCoord (vs : List Vec3) (v : Vec3) (hv : v ∈ vs) :
    vabsMax v ≤ maxAbsCoord vs := by
  induction vs with
  | nil => cases hv
  | cons w vs ih =>
      rw [maxAbsCoord_cons]
      rcases List.mem_cons.mp hv with h | h
      · exact h ▸ le_max_left _ _
      · exact le_trans (ih h) (le_max_right _ _)

lemma vabsMax_eq_zero (v : Vec3) (h : vabsMax v ≤ 0) : v = (0, 0, 0) := by
  rw [vabsMax] at h
  have h1 : |v.1| ≤ 0 := le_trans (le_max_left _ _) h
  have h2 : |v.2.1| ≤ 0 :=
    le_trans (le_trans (le_max_left _ _) (le_max_right _ _)) h
  have h3 : |v.2.2| ≤ 0 :=
    le_trans (le_trans (le_max_right _ _) (le_max_right _ _)) h
  have e1 := abs_nonpos_iff.mp h1
  have e2 := abs_nonpos_iff.mp h2
  have e3 := abs_nonpos_iff.mp h3
  exact Prod.ext e1 (Prod.ext e2 e3)

lemma scaleOf_nonneg (vs : List Vec3) : 0 ≤ scaleOf vs :=
  maxAbsCoord_nonneg _

lemma vsub_eq_zero (p c : Vec3) (h : vsub p c = (0, 0, 0)) : p = c := by
  simp only [vsub, Prod.mk.injEq] at h
  obtain ⟨h1, h2, h3⟩ := h
  exact Prod.ext (by linarith) (Prod.ext (by linarith) (by linarith))

/-- If two vertices of the input differ, the scale factor is strictly
positive. -/
lemma scaleOf_pos (vs : List Vec3) (h : ∃ p ∈ vs, ∃ q ∈ vs, p ≠ q) :
    0 < scaleOf vs := by
  obtain ⟨p, hp, q, hq, hpq⟩ := h
  rcases lt_or_eq_of_le (scaleOf_nonneg vs) with hlt | heq
  · exact hlt
  · exfalso
    apply hpq
    have hz : ∀ v ∈ vs, v = centerOf vs := by
      intro v hv
      have hmem : vsub v (centerOf vs) ∈ centeredVerts vs :=
        List.mem_map.mpr ⟨v, hv, rfl⟩
      have hle := vabsMax_le_maxAbsCoord _ _ hmem
      rw [show maxAbsCoord (centeredVerts vs) = scaleOf vs from rfl, ← heq] at hle
      exact vsub_eq_zero _ _ (vabsMax_eq_zero _ hle)
    rw [hz p hp, hz q hq]

lemma max_div_of_pos (a b s : ℚ) (hs : 0 < s) : max (a / s) (b / s) = max a b / s := by
  rcases le_total a b with h | h
  · rw [max_eq_right h, max_eq_right (by gcongr)]
  · rw [max_eq_left h, max_eq_left (by gcongr)]

lemma vabsMax_vdiv (v : Vec3) (s : ℚ) (hs : 0 < s) :
    vabsMax (vdiv v s) = vabsMax v / s := by
  rw [vabsMax, vabsMax, vdiv]
  simp only [abs_div, abs_of_pos hs]
  rw [max_div_of_pos _ _ _ hs, max_div_of_pos _ _ _ hs]

lemma maxAbsCoord_map_div (vs : List Vec3) (s : ℚ) (hs : 0 < s) :
    maxAbsCoord (vs.map (fun v => vdiv v s)) = maxAbsCoord vs / s := by
  induction vs with
  | nil => simp [maxAbsCoord_nil]
  | cons v vs ih =>
      rw [List.map_cons, maxAbsCoord_cons, maxAbsCoord_cons, ih,
        vabsMax_vdiv _ _ hs, max_div_of_pos _ _ _ hs]

lemma maxAbsCoord_normalizeVerts (vs : List Vec3) (hs : 0 < scaleOf vs) :
    maxAbsCoord (normalizeVerts vs) = 1 := by
  rw [normalizeVerts, maxAbsCoord_map_div _ _ hs,
    show maxAbsCoord (centeredVerts vs) = scaleOf vs from rfl,
    div_self hs.ne']

lemma invTransform_vdiv_vsub (s : ℚ) (c v : Vec3) (hs : s ≠ 0) :
    invTransform s c (vdiv (vsub v c) s) = v := by
  simp only [invTransform, vdiv, vsub, vadd, vsmul, Prod.ext_iff]
  refine ⟨by field_simp, by field_simp, by field_simp⟩

/-- C1 counterexample: on an input whose vertices are all identical, the
centered vertices are all zero, the scale factor is zero, and the normalized
vertices have maximum absolute coordinate 0, not 1.  The claim's universal
statement is therefore false. -/
theorem normalization_fails_on_constant_input :
    ¬ (vmean (normalizeVerts [((1:ℚ), 1, 1), (1, 1, 1)]) = (0, 0, 0) ∧
       maxAbsCoord (normalizeVerts [((1:ℚ), 1, 1), (1, 1, 1)]) = 1) := by
  intro h
  have h2 := h.2
  norm_num [normalizeVerts, scaleOf, maxAbsCoord, centeredVerts, centerOf, vmean,
    vsum, vadd, vsub, vdiv, vabsMax] at h2

/-- C1 (amended): for any input vertex set containing two vertices that
differ, the normalized vertices have centroid exactly at the origin and
maximum absolute coordinate exactly 1. -/
theorem normalization_centroid_zero_and_unit_max (vs : List Vec3)
    (h : ∃ p ∈ vs, ∃ q ∈ vs, p ≠ q) :
    vmean (normalizeVerts vs) = (0, 0, 0) ∧ maxAbsCoord (normalizeVerts vs) = 1 :=
  ⟨vmean_normalizeVerts vs, maxAbsCoord_normalizeVerts vs (scaleOf_pos vs h)⟩

/-- C1 witness: the amended normalization theorem applied to the concrete
input `[(0,0,0), (2,0,0)]`. -/
theorem normalization_centroid_zero_and_unit_max_witness :
    (∃ p ∈ sampleVerts, ∃ q ∈ sampleVerts,
      p ≠ q) ∧
    (vmean (normalizeVerts sampleVerts) = (0, 0, 0) ∧
     maxAbsCoord (normalizeVerts sampleVerts) = 1) := by
  have hx : ∃ p ∈ sampleVerts,
      ∃ q ∈ sampleVerts, p ≠ q := by
    refine ⟨(0, 0, 0), ?_, (2, 0, 0), ?_, ?_⟩
    · simp [sampleVerts]
    · simp [sampleVerts]
    · norm_num [Prod.ext_iff]
  exact ⟨hx, normalization_centroid_zero_and_unit_max _ hx⟩

/-- C2: whenever the scale factor is nonzero (normalization is defined),
multiplying each normalized vertex by the stored scale and adding the stored
center reconstructs the original vertex list exactly. -/
theorem inverse_transform_reconstructs (vs : List Vec3) (h : scaleOf vs ≠ 0) :
    (normalizeVerts vs).map (invTransform (scaleOf vs) (centerOf vs)) = vs := by
  rw [normalizeVerts, centeredVerts, List.map_map, List.map_map]
  have hfun :
      ((invTransform (scaleOf vs) (centerOf vs) ∘ fun v => vdiv v (scaleOf vs)) ∘
        fun v => vsub v (centerOf vs)) = id :=
    funext fun v => invTransform_vdiv_vsub (scaleOf vs) (centerOf vs) v h
  rw [hfun, List.map_id]

/-- C2 witness: the inverse-transform theorem applied to the concrete input
`[(0,0,0), (2,0,0)]`. -/
theorem inverse_transform_reconstructs_witness :
    scaleOf sampleVerts ≠ 0 ∧
    (normalizeVerts sampleVerts).map
        (invTransform (scaleOf sampleVerts)
          (centerOf sampleVerts)) =
      sampleVerts := by
  have hs : scaleOf sampleVerts ≠ 0 := by
    norm_num [sampleVerts, scaleOf, maxAbsCoord, centeredVerts, centerOf, vmean,
      vsum, vadd, vsub, vdiv, vabsMax]
  exact ⟨hs, inverse_transform_reconstructs _ hs⟩

/-- C10: if the input contains two vertices that differ, the scale factor
(maximum absolute coordinate after centering) is strictly positive, so the
unguarded division in the normalization is well-defined. -/
theorem scale_factor_positive (vs : List Vec3)
    (h : ∃ p ∈ vs, ∃ q ∈ vs, p ≠ q) :
    0 < scaleOf vs ∧ scaleOf vs ≠ 0 :=
  ⟨scaleOf_pos vs h, (scaleOf_pos vs h).ne'⟩

/-- C10 witness: the scale-positivity theorem applied to the concrete input
`[(0,0,0), (2,0,0)]`. -/
theorem scale_factor_positive_witness :
    (∃ p ∈ sampleVerts, ∃ q ∈ sampleVerts,
      p ≠ q) ∧
    (0 < scaleOf sampleVerts ∧
     scaleOf sampleVerts ≠ 0) := by
  have hx : ∃ p ∈ sampleVerts,
      ∃ q ∈ sampleVerts, p ≠ q := by
    refine ⟨(0, 0, 0), ?_, (2, 0, 0), ?_, ?_⟩
    · simp [sampleVerts]
    · simp [sampleVerts]
    · norm_num [Prod.ext_iff]
  exact ⟨hx, scale_factor_positive _ hx⟩

lemma run_loop_succ (env : LoopEnv) (n : ℕ) :
    run_loop env (n + 1) = loop_step env n (run_loop env n) := rfl

lemma run_loop_src (env : LoopEnv) (n : ℕ) :
    (run_loop env n).src_mesh = env.src_mesh := by
  induction n with
  | zero => rfl
  | succ n ih => rw [run_loop_succ]; simpa [loop_step] using ih

lemma run_loop_new_mesh (env : LoopEnv) (n : ℕ) :
    (run_loop env (n + 1)).new_src_mesh =
      env.src_mesh.offset_verts ((run_loop env n).deform_verts) := by
  rw [run_loop_succ]
  simp [loop_step, run_loop_src]

lemma offset_verts_faces (m : Mesh) (d : List Vec3) :
    (m.offset_verts d).faces = m.faces := rfl

lemma run_loop_new_mesh_faces (env : LoopEnv) (n : ℕ) :
    (run_loop env (n + 1)).new_src_mesh.faces = env.src_mesh.faces := by
  rw [run_loop_new_mesh]
  rfl

lemma run_loop_chamfer (env : LoopEnv) (n : ℕ) :
    (run_loop env n).chamfer_losses =
      (List.range n).map
        (fun i => env.ext.loss_chamfer i env.trg_mesh (mesh_at env i)) := by
  induction n with
  | zero => rfl
  | succ n ih =>
      rw [run_loop_succ, List.range_succ]
      simp [loop_step, ih, mesh_at, run_loop_src]

lemma run_loop_edge (env : LoopEnv) (n : ℕ) :
    (run_loop env n).edge_losses =
      (List.range n).map (fun i => env.ext.loss_edge (mesh_at env i)) := by
  induction n with
  | zero => rfl
  | succ n ih =>
      rw [run_loop_succ, List.range_succ]
      simp [loop_step, ih, mesh_at, run_loop_src]

lemma run_loop_normal (env : LoopEnv) (n : ℕ) :
    (run_loop env n).normal_losses =
      (List.range n).map (fun i => env.ext.loss_normal (mesh_at env i)) := by
  induction n with
  | zero => rfl
  | succ n ih =>
      rw [run_loop_succ, List.range_succ]
      simp [loop_step, ih, mesh_at, run_loop_src]

lemma run_loop_laplacian (env : LoopEnv) (n : ℕ) :
    (run_loop env n).laplacian_losses =
      (List.range n).map (fun i => env.ext.loss_laplacian (mesh_at env i)) := by
  induction n with
  | zero => rfl
  | succ n ih =>
      rw [run_loop_succ, List.range_succ]
      simp [loop_step, ih, mesh_at, run_loop_src]

lemma run_loop_loss_log (env : LoopEnv) (n : ℕ) :
    (run_loop env n).loss_log =
      (List.range n).map
        (fun i =>
          total_loss (env.ext.loss_chamfer i env.trg_mesh (mesh_at env i))
            (env.ext.loss_edge (mesh_at env i))
            (env.ext.loss_normal (mesh_at env i))
            (env.ext.loss_laplacian (mesh_at env i))) := by
  induction n with
  | zero => rfl
  | succ n ih =>
      rw [run_loop_succ, List.range_succ]
      simp [loop_step, ih, mesh_at, run_loop_src]

lemma zipWith_vadd_replicate_zero (vs : List Vec3) :
    List.zipWith vadd vs (List.replicate vs.length (0 : Vec3)) = vs := by
  induction vs with
  | nil => rfl
  | cons v vs ih => simp [List.replicate_succ, ih, vadd_zero_vec]

lemma offset_verts_zero_deform (m : Mesh) : m.offset_verts (zero_deform m) = m := by
  cases m with
  | mk verts faces =>
      simp [Mesh.offset_verts, zero_deform, zipWith_vadd_replicate_zero]

/-- C3: at iteration zero, the offset parameter is initialized to all zeros,
and the deformed mesh built inside the first loop iteration (before any
optimizer update) equals the initial source mesh exactly. -/
theorem zero_offset_baseline (env : LoopEnv) :
    (init_state env).deform_verts =
      List.replicate env.src_mesh.verts.length (0, 0, 0) ∧
    (run_loop env 1).new_src_mesh = env.src_mesh := by
  refine ⟨rfl, ?_⟩
  rw [run_loop_new_mesh env 0]
  exact offset_verts_zero_deform env.src_mesh

/-- C4: the four weights are the fixed constants 1, 1, 1/100 and 1/10, and in
every iteration the displayed total loss is exactly the weighted sum of the
four loss terms of that iteration with those weights. -/
theorem loop_total_loss_weighted_sum (env : LoopEnv) :
    w_chamfer = 1 ∧ w_edge = 1 ∧ w_normal = 1 / 100 ∧ w_laplacian = 1 / 10 ∧
    ∀ n, (run_loop env n).loss_log =
      (List.range n).map
        (fun i =>
          env.ext.loss_chamfer i env.trg_mesh (mesh_at env i) * w_chamfer +
          env.ext.loss_edge (mesh_at env i) * w_edge +
          env.ext.loss_normal (mesh_at env i) * w_normal +
          env.ext.loss_laplacian (mesh_at env i) * w_laplacian) := by
  refine ⟨rfl, rfl, rfl, rfl, fun n => ?_⟩
  rw [run_loop_loss_log]
  rfl

/-- C5: the loop never mutates the source mesh — after any number of
iterations its vertices and faces are the initial ones — and each iteration's
deformed mesh is a fresh mesh whose vertices add the current offsets to the
source vertices. -/
theorem src_mesh_never_mutated (env : LoopEnv) :
    (∀ n, (run_loop env n).src_mesh = env.src_mesh) ∧
    (∀ n, (run_loop env (n + 1)).new_src_mesh =
      env.src_mesh.offset_verts ((run_loop env n).deform_verts)) :=
  ⟨run_loop_src env, run_loop_new_mesh env⟩

/-- C7: after the loop completes, each of the four loss histories holds
exactly `Niter` entries; in general, after `n` iterations each history is
exactly the list of that loss term's values at iterations `0, …, n-1`, in
iteration order. -/
theorem loss_histories_one_entry_per_iteration (env : LoopEnv) :
    ((run_loop env Niter).chamfer_losses.length = Niter ∧
     (run_loop env Niter).edge_losses.length = Niter ∧
     (run_loop env Niter).normal_losses.length = Niter ∧
     (run_loop env Niter).laplacian_losses.length = Niter) ∧
    ∀ n,
      (run_loop env n).chamfer_losses =
        (List.range n).map
          (fun i => env.ext.loss_chamfer i env.trg_mesh (mesh_at env i)) ∧
      (run_loop env n).edge_losses =
        (List.range n).map (fun i => env.ext.loss_edge (mesh_at env i)) ∧
      (run_loop env n).normal_losses =
        (List.range n).map (fun i => env.ext.loss_normal (mesh_at env i)) ∧
      (run_loop env n).laplacian_losses =
        (List.range n).map (fun i => env.ext.loss_laplacian (mesh_at env i)) := by
  constructor
  · refine ⟨?_, ?_, ?_, ?_⟩ <;>
      simp [run_loop_chamfer, run_loop_edge, run_loop_normal, run_loop_laplacian]
  · intro n
    exact ⟨run_loop_chamfer env n, run_loop_edge env n, run_loop_normal env n,
      run_loop_laplacian env n⟩

/-- C9: the deformed mesh present after the last iteration was built from the
offsets as they stood at the start of that iteration; the iteration's
optimizer update (momentum then parameter step, from the gradient at that
same mesh) changes only the offsets afterwards, so it never reaches the saved
vertex positions. -/
theorem saved_mesh_reflects_pre_update_offsets (env : LoopEnv) (n : ℕ) :
    (run_loop env (n + 1)).new_src_mesh =
      env.src_mesh.offset_verts ((run_loop env n).deform_verts) ∧
    (run_loop env (n + 1)).deform_verts =
      sgd_param_step ((run_loop env n).deform_verts)
        (sgd_momentum_step ((run_loop env n).momentum_buf)
          (env.ext.grad n (mesh_at env n))) := by
  refine ⟨run_loop_new_mesh env n, ?_⟩
  rw [run_loop_succ]
  simp [loop_step, mesh_at, run_loop_src]

/-- C8: if loading the input mesh fails, the error propagates: the whole run
aborts with that error and no output vertex/face pair is produced. -/
theorem load_failure_aborts (inp : ScriptInput) (e : String) (n : ℕ)
    (h : inp.load_result = Except.error e) :
    run_script inp n = Except.error e := by
  unfold run_script
  rw [h]

/-- C8 witness: the load-failure theorem applied to a concrete failing
input. -/
theorem load_failure_aborts_witness :
    failing_input.load_result = Except.error "No such file or directory" ∧
    run_script failing_input Niter = Except.error "No such file or directory" :=
  ⟨rfl, load_failure_aborts failing_input "No such file or directory" Niter rfl⟩

/-- C6: on a successful load, the saved mesh consists of the final deformed
vertices inverse-transformed by the stored scale and center, together with
face topology identical to the source mesh's faces. -/
theorem saved_mesh_faces_unchanged (inp : ScriptInput) (n : ℕ)
    (verts : List Vec3) (faces_idx : List (ℕ × ℕ × ℕ))
    (h : inp.load_result = Except.ok (verts, faces_idx)) :
    run_script inp (n + 1) =
      Except.ok
        (((run_loop (script_env inp verts faces_idx) (n + 1)).new_src_mesh.verts).map
            (invTransform (scaleOf verts) (centerOf verts)),
          inp.src_mesh.faces) := by
  unfold run_script
  rw [h]
  have hf : (run_loop (script_env inp verts faces_idx) (n + 1)).new_src_mesh.faces =
      inp.src_mesh.faces := run_loop_new_mesh_faces _ n
  simp [Mesh.get_mesh_verts_faces, hf]

/-- C6 witness: the saved-mesh theorem applied to a concrete successful
input. -/
theorem saved_mesh_faces_unchanged_witness :
    ok_input.load_result = Except.ok (sampleVerts, sampleFaces) ∧
    run_script ok_input (0 + 1) =
      Except.ok
        (((run_loop (script_env ok_input sampleVerts sampleFaces)
              (0 + 1)).new_src_mesh.verts).map
            (invTransform (scaleOf sampleVerts) (centerOf sampleVerts)),
          ok_input.src_mesh.faces) :=
  ⟨rfl, saved_mesh_faces_unchanged ok_input 0 sampleVerts sampleFaces rfl⟩
